import Mathlib

/-!
Shallow embedding of the model-response interpretation logic of
`src/services/geminiService.ts`: the `handleApiResponse` classifier used by
every image-producing operation, and the response-handling portion of
`detectObjects` (called `parseDetectionResponse` in the design document).

JavaScript optional chaining (`?.`) is embedded as `Option.bind`; JavaScript
truthiness of an optional string (`undefined`, `null` and `""` are falsy) is
embedded as `strTruthy`; a thrown `Error` is embedded as a dedicated
constructor of the result type, one per throw site, labelled with the failure
kind the design document assigns to that site.
-/

namespace GeminiService

/-- The `inlineData` payload of a response part: a MIME type and a base64
body, as destructured at the success branch of `handleApiResponse`. -/
structure InlineData where
  mimeType : String
  data : String
deriving DecidableEq

/-- A content part of a candidate. Only the `inlineData` field is ever read
by the classifier, so it is the only field modelled. -/
structure Part where
  inlineData : Option InlineData
deriving DecidableEq

/-- A candidate's `content`, holding an optional list of parts. -/
structure Content where
  parts : Option (List Part)
deriving DecidableEq

/-- A response candidate: its content and its finish reason. -/
structure Candidate where
  content : Option Content
  finishReason : Option String
deriving DecidableEq

/-- The `promptFeedback` object of a response. -/
structure PromptFeedback where
  blockReason : Option String
  blockReasonMessage : Option String
deriving DecidableEq

/-- The observable shape of a `GenerateContentResponse` as read by the
classifier: optional prompt feedback, optional candidate list, and the
optional aggregated top-level `text` accessor of the SDK. -/
structure GenerateContentResponse where
  promptFeedback : Option PromptFeedback
  candidates : Option (List Candidate)
  text : Option String
deriving DecidableEq

/-- JavaScript truthiness of an optional string: absent and `""` are falsy. -/
def strTruthy : Option String → Bool
  | none => false
  | some s => s != ""

/-- The character class removed by `String.prototype.trim`, restricted to
the members that occur in practice (ASCII whitespace, NBSP, BOM). -/
def isJsWhitespaceChar (c : Char) : Bool :=
  c = ' ' || c = '\t' || c = '\n' || c = '\r' || c = '\x0b' || c = '\x0c' ||
    c = '\u00A0' || c = '\uFEFF'

/-- Drop leading JS whitespace from a character list. -/
def dropLeadingWs : List Char → List Char
  | [] => []
  | c :: cs => if isJsWhitespaceChar c then dropLeadingWs cs else c :: cs

/-- Embedding of `String.prototype.trim`. -/
def jsTrim (s : String) : String :=
  String.mk ((dropLeadingWs ((dropLeadingWs s.data).reverse)).reverse)

/-- Embedding of `response.promptFeedback?.blockReason`. -/
def promptBlockReason (r : GenerateContentResponse) : Option String :=
  r.promptFeedback.bind PromptFeedback.blockReason

/-- Embedding of `response.promptFeedback?.blockReasonMessage` (the second
field destructured in the blocked branch). -/
def promptBlockReasonMessage (r : GenerateContentResponse) : Option String :=
  r.promptFeedback.bind PromptFeedback.blockReasonMessage

/-- Embedding of `response.candidates?.[0]`. -/
def firstCandidate (r : GenerateContentResponse) : Option Candidate :=
  r.candidates.bind List.head?

/-- Embedding of `response.candidates?.[0]?.content?.parts`. -/
def candidateParts (r : GenerateContentResponse) : Option (List Part) :=
  ((firstCandidate r).bind Candidate.content).bind Content.parts

/-- Embedding of
`response.candidates?.[0]?.content?.parts?.find(part => part.inlineData)`. -/
def imagePartFromResponse (r : GenerateContentResponse) : Option Part :=
  (candidateParts r).bind (List.find? fun p => p.inlineData.isSome)

/-- Embedding of `response.candidates?.[0]?.finishReason`. -/
def firstFinishReason (r : GenerateContentResponse) : Option String :=
  (firstCandidate r).bind Candidate.finishReason

/-- Result of interpreting a response: the returned data URL, or one throw
site per failure kind of the design document's error taxonomy. -/
inductive InterpretResult where
  | ok (dataUrl : String)
  | requestBlocked (message : String)
  | abnormalFinish (message : String)
  | noImageReturned (message : String)
deriving DecidableEq

/-- Discriminator: is the result the success case? -/
def InterpretResult.isOk : InterpretResult → Bool
  | .ok _ => true
  | _ => false

/-- Discriminator: is the result a `RequestBlocked` failure? -/
def InterpretResult.isRequestBlocked : InterpretResult → Bool
  | .requestBlocked _ => true
  | _ => false

/-- Discriminator: is the result an `AbnormalFinish` failure? -/
def InterpretResult.isAbnormalFinish : InterpretResult → Bool
  | .abnormalFinish _ => true
  | _ => false

/-- Discriminator: is the result a `NoImageReturned` failure? -/
def InterpretResult.isNoImageReturned : InterpretResult → Bool
  | .noImageReturned _ => true
  | _ => false

/-- The blocked-request message:
`Request was blocked. Reason: ${blockReason}. ${blockReasonMessage || ''}`.
Appends are grouped to the right; string append is associative, so the value
is the same as the source's left-to-right concatenation. -/
def blockedMessage (blockReason : String) (blockReasonMessage : Option String) : String :=
  "Request was blocked. Reason: " ++ (blockReason ++ (". " ++ blockReasonMessage.getD ""))

/-- The abnormal-stop message: `Image generation for ${context} stopped
unexpectedly. Reason: ${finishReason}. This often relates to safety
settings.` -/
def abnormalMessage (context finishReason : String) : String :=
  "Image generation for " ++ (context ++ (" stopped unexpectedly. Reason: " ++
    (finishReason ++ ". This often relates to safety settings.")))

/-- The no-image message when trimmed response text is non-empty: a common
prelude naming the context, then
`The model responded with text: "${textFeedback}"`. -/
def noImageTextMessage (context trimmedText : String) : String :=
  "The AI model did not return an image for the " ++ (context ++
    (". The model responded with text: \"" ++ (trimmedText ++ "\"")))

/-- The no-image message when there is no usable response text: the common
prelude naming the context, then the generic guidance sentence. -/
def noImageGenericMessage (context : String) : String :=
  "The AI model did not return an image for the " ++ (context ++
    ". This can happen due to safety filters or if the request is too complex. Please try rephrasing your prompt to be more direct.")

/-- The data URL returned on success:
`data:${mimeType};base64,${data}`. -/
def imageDataUrl (mimeType data : String) : String :=
  "data:" ++ (mimeType ++ (";base64," ++ data))

/-- Embedding of `handleApiResponse(response, context)` from
`src/services/geminiService.ts`. The four branches are taken in source
order: blocked prompt, inline image part, abnormal finish reason, then the
text / generic fallback. Conditions reproduce the source's truthiness tests. -/
def handleApiResponse (response : GenerateContentResponse) (context : String) :
    InterpretResult :=
  if strTruthy (promptBlockReason response) then
    .requestBlocked (blockedMessage ((promptBlockReason response).getD "")
      (promptBlockReasonMessage response))
  else
    match (imagePartFromResponse response).bind Part.inlineData with
    | some d => .ok (imageDataUrl d.mimeType d.data)
    | none =>
      let finishReason := firstFinishReason response
      if strTruthy finishReason && (finishReason.getD "" != "STOP") then
        .abnormalFinish (abnormalMessage context (finishReason.getD ""))
      else
        let textFeedback := response.text.map jsTrim
        if strTruthy textFeedback then
          .noImageReturned (noImageTextMessage context (textFeedback.getD ""))
        else
          .noImageReturned (noImageGenericMessage context)

/-- A JSON value, as produced by the embedding of the `JSON.parse` builtin
used by `detectObjects`. Numbers keep their source lexeme: the detection
code never interprets them numerically, so no floating-point semantics are
needed. -/
inductive Json where
  | null
  | boolean (b : Bool)
  | num (lexeme : String)
  | str (value : String)
  | arr (items : List Json)
  | obj (fields : List (String × Json))

/-- Discriminator for `Array.isArray` on a parsed JSON value. -/
def Json.isArr : Json → Bool
  | .arr _ => true
  | _ => false

/-- Skip JSON insignificant whitespace (space, tab, newline, return). -/
def jsonSkipWs : List Char → List Char
  | [] => []
  | c :: cs =>
    if c = ' ' || c = '\t' || c = '\n' || c = '\r' then jsonSkipWs cs else c :: cs

/-- Consume an expected literal character sequence. -/
def expectLit : List Char → List Char → Option (List Char)
  | [], cs => some cs
  | _, [] => none
  | l :: ls, c :: cs => if c = l then expectLit ls cs else none

/-- Value of a hexadecimal digit, if the character is one. -/
def hexVal (c : Char) : Option Nat :=
  let n := c.toNat
  if 48 ≤ n && n ≤ 57 then some (n - 48)
  else if 97 ≤ n && n ≤ 102 then some (n - 87)
  else if 65 ≤ n && n ≤ 70 then some (n - 55)
  else none

/-- Scan a JSON string body after the opening quote, handling escapes;
`acc` holds the characters read so far, in reverse. -/
def scanStringBody (acc : List Char) : List Char → Option (String × List Char)
  | [] => none
  | c :: cs =>
    if c = '"' then some (String.mk acc.reverse, cs)
    else if c = '\\' then
      match cs with
      | [] => none
      | e :: cs2 =>
        if e = '"' then scanStringBody ('"' :: acc) cs2
        else if e = '\\' then scanStringBody ('\\' :: acc) cs2
        else if e = '/' then scanStringBody ('/' :: acc) cs2
        else if e = 'n' then scanStringBody ('\n' :: acc) cs2
        else if e = 't' then scanStringBody ('\t' :: acc) cs2
        else if e = 'r' then scanStringBody ('\r' :: acc) cs2
        else if e = 'b' then scanStringBody ('\x08' :: acc) cs2
        else if e = 'f' then scanStringBody ('\x0c' :: acc) cs2
        else if e = 'u' then
          match cs2 with
          | h1 :: h2 :: h3 :: h4 :: cs3 =>
            match hexVal h1, hexVal h2, hexVal h3, hexVal h4 with
            | some a, some b, some c3, some d =>
              scanStringBody (Char.ofNat (((a * 16 + b) * 16 + c3) * 16 + d) :: acc) cs3
            | _, _, _, _ => none
          | _ => none
        else none
    else scanStringBody (c :: acc) cs

/-- Accumulate the leading run of decimal digits (in reverse) and return it
with the remainder. -/
def digitSpan (acc : List Char) : List Char → List Char × List Char
  | [] => (acc.reverse, [])
  | c :: cs => if c.isDigit then digitSpan (c :: acc) cs else (acc.reverse, c :: cs)

/-- Split a character list into its leading run of decimal digits and the
rest. -/
def takeDigits (cs : List Char) : List Char × List Char :=
  digitSpan [] cs

/-- Scan the integer part of a JSON number: `0`, or a nonzero digit followed
by digits (JSON forbids leading zeros). -/
def scanIntPart : List Char → Option (List Char × List Char)
  | [] => none
  | c :: cs =>
    if c = '0' then some ([c], cs)
    else if c.isDigit then
      let (ds, rest) := takeDigits cs
      some (c :: ds, rest)
    else none

/-- Scan the optional fraction part of a JSON number. -/
def scanFracPart (cs : List Char) : Option (List Char × List Char) :=
  match cs with
  | '.' :: cs1 =>
    match takeDigits cs1 with
    | ([], _) => none
    | (ds, rest) => some ('.' :: ds, rest)
  | _ => some ([], cs)

/-- Scan the optional exponent part of a JSON number. -/
def scanExpPart (cs : List Char) : Option (List Char × List Char) :=
  match cs with
  | c :: cs1 =>
    if c = 'e' || c = 'E' then
      match cs1 with
      | s :: cs2 =>
        if s = '+' || s = '-' then
          match takeDigits cs2 with
          | ([], _) => none
          | (ds, rest) => some (c :: s :: ds, rest)
        else
          match takeDigits cs1 with
          | ([], _) => none
          | (ds, rest) => some (c :: ds, rest)
      | [] => none
    else some ([], cs)
  | [] => some ([], cs)

/-- Scan a complete JSON number, returning its lexeme. -/
def scanNumber (cs : List Char) : Option (String × List Char) :=
  let (sign, cs1) :=
    match cs with
    | '-' :: rest => (['-'], rest)
    | _ => ([], cs)
  match scanIntPart cs1 with
  | none => none
  | some (ip, cs2) =>
    match scanFracPart cs2 with
    | none => none
    | some (fp, cs3) =>
      match scanExpPart cs3 with
      | none => none
      | some (ep, cs4) => some (String.mk (sign ++ ip ++ fp ++ ep), cs4)

mutual

/-- Recursive-descent embedding of the `JSON.parse` grammar for a single
value; `fuel` bounds the recursion depth and is sized by the caller. -/
def parseJsonValue : Nat → List Char → Option (Json × List Char)
  | 0, _ => none
  | fuel + 1, cs =>
    match jsonSkipWs cs with
    | [] => none
    | c :: rest =>
      if c = 'n' then
        match expectLit ['u', 'l', 'l'] rest with
        | some r => some (Json.null, r)
        | none => none
      else if c = 't' then
        match expectLit ['r', 'u', 'e'] rest with
        | some r => some (Json.boolean true, r)
        | none => none
      else if c = 'f' then
        match expectLit ['a', 'l', 's', 'e'] rest with
        | some r => some (Json.boolean false, r)
        | none => none
      else if c = '"' then
        match scanStringBody [] rest with
        | some (s, r) => some (Json.str s, r)
        | none => none
      else if c = '[' then
        match jsonSkipWs rest with
        | ']' :: r2 => some (Json.arr [], r2)
        | r1 =>
          match parseJsonElems fuel r1 with
          | some (es, r2) => some (Json.arr es, r2)
          | none => none
      else if c = '{' then
        match jsonSkipWs rest with
        | '}' :: r2 => some (Json.obj [], r2)
        | r1 =>
          match parseJsonMembers fuel r1 with
          | some (ms, r2) => some (Json.obj ms, r2)
          | none => none
      else if c = '-' || c.isDigit then scanNumber (c :: rest)
        |>.map (fun (lex, r) => (Json.num lex, r))
      else none

/-- Parse one or more comma-separated array elements up to the closing
bracket. -/
def parseJsonElems : Nat → List Char → Option (List Json × List Char)
  | 0, _ => none
  | fuel + 1, cs =>
    match parseJsonValue fuel cs with
    | none => none
    | some (j, rest) =>
      match jsonSkipWs rest with
      | ',' :: r2 =>
        match parseJsonElems fuel r2 with
        | some (js, r3) => some (j :: js, r3)
        | none => none
      | ']' :: r2 => some ([j], r2)
      | _ => none

/-- Parse one or more comma-separated object members up to the closing
brace. -/
def parseJsonMembers : Nat → List Char → Option (List (String × Json) × List Char)
  | 0, _ => none
  | fuel + 1, cs =>
    match jsonSkipWs cs with
    | '"' :: rest =>
      match scanStringBody [] rest with
      | none => none
      | some (key, r1) =>
        match jsonSkipWs r1 with
        | ':' :: r2 =>
          match parseJsonValue fuel r2 with
          | none => none
          | some (v, r3) =>
            match jsonSkipWs r3 with
            | ',' :: r4 =>
              match parseJsonMembers fuel r4 with
              | some (ms, r5) => some ((key, v) :: ms, r5)
              | none => none
            | '}' :: r4 => some ([(key, v)], r4)
            | _ => none
        | _ => none
    | _ => none

end

/-- Embedding of the `JSON.parse` builtin: parse a complete JSON document,
requiring that only whitespace remains after the value. -/
def Json.parse (s : String) : Option Json :=
  match parseJsonValue (s.length + 1) s.data with
  | some (j, rest) => if jsonSkipWs rest = [] then some j else none
  | none => none

/-- Result of the detection-response handling in `detectObjects`: the parsed
array (passed through without element validation), or one of the two failure
kinds of the design document. -/
inductive DetectionResult where
  | ok (objects : List Json)
  | requestBlocked (message : String)
  | malformed (message : String)

/-- Discriminator: is the detection result the success case? -/
def DetectionResult.isOk : DetectionResult → Bool
  | .ok _ => true
  | _ => false

/-- Discriminator: is the detection result a `RequestBlocked` failure? -/
def DetectionResult.isRequestBlocked : DetectionResult → Bool
  | .requestBlocked _ => true
  | _ => false

/-- Discriminator: is the detection result a `MalformedDetectionPayload`
failure? -/
def DetectionResult.isMalformed : DetectionResult → Bool
  | .malformed _ => true
  | _ => false

/-- The message thrown by the `catch` block of `detectObjects`. -/
def invalidFormatMessage : String :=
  "The AI model returned an invalid format for object detection. Please try again."

/-- Embedding of the response-handling portion of `detectObjects` (lines
288-310 of `src/services/geminiService.ts`), called `parseDetectionResponse`
in the design document. When `response.text` is absent, the source evaluates
`undefined.trim()`, which raises a TypeError that the surrounding
`try`/`catch` converts into the invalid-format failure — hence the
`none => malformed` branch. -/
def parseDetectionResponse (response : GenerateContentResponse) : DetectionResult :=
  if strTruthy (promptBlockReason response) then
    .requestBlocked (blockedMessage ((promptBlockReason response).getD "")
      (promptBlockReasonMessage response))
  else
    match response.text with
    | none => .malformed invalidFormatMessage
    | some t =>
      let jsonText := jsTrim t
      if jsonText = "" then .ok []
      else
        match Json.parse jsonText with
        | none => .malformed invalidFormatMessage
        | some (Json.arr elems) => .ok elems
        | some _ => .malformed invalidFormatMessage

/-- `containsStr s sub` holds when `sub` occurs contiguously inside `s`. -/
def containsStr (s sub : String) : Prop :=
  ∃ a b : String, s = a ++ (sub ++ b)

/-- A response that is blocked and also carries an inline image, a normal
finish reason and parseable text: every later classification step would
also match. -/
def blockedEverythingResponse : GenerateContentResponse :=
  ⟨some ⟨some "SAFETY", some "Blocked for safety."⟩,
   some [⟨some ⟨some [⟨some ⟨"image/png", "AAA"⟩⟩]⟩, some "STOP"⟩],
   some "[]"⟩

/-- A response whose `blockReason` is present but equal to the empty string,
and which also carries an inline image and parseable text. -/
def emptyBlockReasonResponse : GenerateContentResponse :=
  ⟨some ⟨some "", none⟩,
   some [⟨some ⟨some [⟨some ⟨"image/png", "AAA"⟩⟩]⟩, some "STOP"⟩],
   some "[]"⟩

/-- A response whose first candidate holds a non-image part, then a PNG
inline part, then a later JPEG inline part. -/
def multiPartResponse : GenerateContentResponse :=
  ⟨none,
   some [⟨some ⟨some [⟨none⟩, ⟨some ⟨"image/png", "AAAA"⟩⟩,
     ⟨some ⟨"image/jpeg", "BBBB"⟩⟩]⟩, none⟩],
   none⟩

/-- A response carrying an inline image together with a non-`STOP` finish
reason and non-empty text. -/
def abnormalWithImageResponse : GenerateContentResponse :=
  ⟨none,
   some [⟨some ⟨some [⟨none⟩, ⟨some ⟨"image/png", "AAAA"⟩⟩]⟩, some "MAX_TOKENS"⟩],
   some "oops"⟩

/-- A response with no image part and finish reason `SAFETY`. -/
def safetyFinishResponse : GenerateContentResponse :=
  ⟨none, some [⟨some ⟨some [⟨none⟩]⟩, some "SAFETY"⟩], none⟩

/-- A response whose finish reason is present but equal to the empty
string, with no image part and no text. -/
def emptyFinishReasonResponse : GenerateContentResponse :=
  ⟨none, some [⟨none, some ""⟩], none⟩

/-- A response with no image, finish reason `STOP`, and refusal text. -/
def refusalTextResponse : GenerateContentResponse :=
  ⟨none, some [⟨some ⟨some []⟩, some "STOP"⟩], some "I cannot do that."⟩

/-- A response with no image, finish reason `STOP`, and whitespace-only
text. -/
def whitespaceOnlyResponse : GenerateContentResponse :=
  ⟨none, some [⟨none, some "STOP"⟩], some "   "⟩

/-- A response with no `candidates` at all. -/
def noCandidatesResponse : GenerateContentResponse :=
  ⟨none, none, none⟩

/-- A detection response whose text is present but whitespace-only. -/
def whitespaceTextDetectionResponse : GenerateContentResponse :=
  ⟨none, none, some "   "⟩

/-- A detection response with no top-level text at all. -/
def missingTextDetectionResponse : GenerateContentResponse :=
  ⟨none, none, none⟩

/-- A detection response whose text is not JSON. -/
def notJsonDetectionResponse : GenerateContentResponse :=
  ⟨none, none, some "not json"⟩

/-- A detection response whose text is a JSON array of bare numbers, not
objects with `label` and `box`. -/
def numberArrayDetectionResponse : GenerateContentResponse :=
  ⟨none, none, some " [1, 2, 3] "⟩

theorem strTruthy_none : strTruthy none = false := rfl

theorem strTruthy_some_ne {s : String} (h : s ≠ "") : strTruthy (some s) = true := by
  simp [strTruthy, h]

theorem find?_inline_first (pre post : List Part) (part : Part)
    (hpre : ∀ p ∈ pre, p.inlineData = none) (hpart : part.inlineData.isSome) :
    List.find? (fun p => p.inlineData.isSome) (pre ++ part :: post) = some part := by
  induction pre with
  | nil => simp [List.find?_cons, hpart]
  | cons a as ih =>
    have ha : a.inlineData = none := hpre a (by simp)
    have hrec := ih (fun p hp => hpre p (by simp [hp]))
    simp [List.find?_cons, ha, hrec]

theorem imagePart_of_split (r : GenerateContentResponse) (ps pre post : List Part)
    (part : Part) (hps : candidateParts r = some ps) (hsplit : ps = pre ++ part :: post)
    (hpre : ∀ p ∈ pre, p.inlineData = none) (hpart : part.inlineData.isSome) :
    imagePartFromResponse r = some part := by
  unfold imagePartFromResponse
  rw [hps, hsplit]
  simpa using find?_inline_first pre post part hpre hpart

theorem handle_ok_of_inline (r : GenerateContentResponse) (context M D : String)
    (hb : strTruthy (promptBlockReason r) = false)
    (hbind : (imagePartFromResponse r).bind Part.inlineData = some ⟨M, D⟩) :
    handleApiResponse r context = .ok (imageDataUrl M D) := by
  simp [handleApiResponse, hb, hbind]

/-- C1 (amended): for every response whose `promptFeedback.blockReason` is
present and non-empty, both `handleApiResponse` (for any context string) and
`parseDetectionResponse` fail with kind `RequestBlocked`, regardless of every
other field value. -/
theorem claim1_blocked_wins (r : GenerateContentResponse) (context br : String)
    (hbr : promptBlockReason r = some br) (hne : br ≠ "") :
    (handleApiResponse r context).isRequestBlocked = true ∧
    (parseDetectionResponse r).isRequestBlocked = true := by
  have ht : strTruthy (promptBlockReason r) = true := by
    rw [hbr]; exact strTruthy_some_ne hne
  constructor
  · simp [handleApiResponse, ht, InterpretResult.isRequestBlocked]
  · simp [parseDetectionResponse, ht, DetectionResult.isRequestBlocked]

/-- C1 witness: a blocked response that also carries an inline image, a
`STOP` finish reason and parseable text is still classified as blocked by
both interpreters. -/
theorem claim1_blocked_wins_witness :
    promptBlockReason blockedEverythingResponse = some "SAFETY" ∧
    ("SAFETY" : String) ≠ "" ∧
    (handleApiResponse blockedEverythingResponse "edit").isRequestBlocked = true ∧
    (parseDetectionResponse blockedEverythingResponse).isRequestBlocked = true := by
  have h := claim1_blocked_wins blockedEverythingResponse "edit" "SAFETY" rfl (by decide)
  exact ⟨rfl, by decide, h.1, h.2⟩

/-- C1 counterexample: a response whose `blockReason` is present but equal
to `""` is not classified as blocked — the source tests JavaScript
truthiness, and the empty string is falsy — so `handleApiResponse` returns
the inline image and `parseDetectionResponse` succeeds. -/
theorem claim1_counterexample :
    promptBlockReason emptyBlockReasonResponse = some "" ∧
    handleApiResponse emptyBlockReasonResponse "edit" =
      .ok (imageDataUrl "image/png" "AAA") ∧
    (handleApiResponse emptyBlockReasonResponse "edit").isRequestBlocked = false ∧
    (parseDetectionResponse emptyBlockReasonResponse).isRequestBlocked = false := by
  exact ⟨rfl, rfl, rfl, rfl⟩

/-- C2: for every response with no `blockReason` whose first candidate's
parts split as `pre ++ part :: post` with no inline data in `pre` and inline
data `⟨M, D⟩` in `part`, `handleApiResponse` succeeds with exactly
`data:M;base64,D` — the first inline part wins and later ones are ignored. -/
theorem claim2_first_inline_success (r : GenerateContentResponse)
    (context M D : String) (ps pre post : List Part) (part : Part)
    (hb : promptBlockReason r = none)
    (hps : candidateParts r = some ps)
    (hsplit : ps = pre ++ part :: post)
    (hpre : ∀ p ∈ pre, p.inlineData = none)
    (hpart : part.inlineData = some ⟨M, D⟩) :
    handleApiResponse r context = .ok (imageDataUrl M D) := by
  have hsome : part.inlineData.isSome := by rw [hpart]; rfl
  have himg := imagePart_of_split r ps pre post part hps hsplit hpre hsome
  have hbind : (imagePartFromResponse r).bind Part.inlineData = some ⟨M, D⟩ := by
    rw [himg]; simpa using hpart
  exact handle_ok_of_inline r context M D (by rw [hb]; rfl) hbind

/-- C2 witness: a candidate whose parts are a non-image part, a PNG inline
part and a later JPEG inline part yields the PNG data URL. -/
theorem claim2_first_inline_success_witness :
    promptBlockReason multiPartResponse = none ∧
    candidateParts multiPartResponse = some [⟨none⟩, ⟨some ⟨"image/png", "AAAA"⟩⟩,
      ⟨some ⟨"image/jpeg", "BBBB"⟩⟩] ∧
    handleApiResponse multiPartResponse "edit" = .ok (imageDataUrl "image/png" "AAAA") := by
  refine ⟨rfl, rfl, ?_⟩
  exact claim2_first_inline_success multiPartResponse "edit" "image/png" "AAAA"
    [⟨none⟩, ⟨some ⟨"image/png", "AAAA"⟩⟩, ⟨some ⟨"image/jpeg", "BBBB"⟩⟩]
    [⟨none⟩] [⟨some ⟨"image/jpeg", "BBBB"⟩⟩] ⟨some ⟨"image/png", "AAAA"⟩⟩
    rfl rfl rfl (by decide) rfl

/-- C3: the classification steps run in source order with first match
winning — a response with no `blockReason` and an inline part succeeds with
the image data URL even when the finish reason is present and differs from
`STOP` and non-empty top-level text is also present. -/
theorem claim3_image_beats_abnormal (r : GenerateContentResponse)
    (context M D fr t : String) (ps pre post : List Part) (part : Part)
    (hb : promptBlockReason r = none)
    (hps : candidateParts r = some ps)
    (hsplit : ps = pre ++ part :: post)
    (hpre : ∀ p ∈ pre, p.inlineData = none)
    (hpart : part.inlineData = some ⟨M, D⟩)
    (_hfr : firstFinishReason r = some fr) (_hfrne : fr ≠ "STOP")
    (_htext : r.text = some t) (_htne : jsTrim t ≠ "") :
    handleApiResponse r context = .ok (imageDataUrl M D) := by
  have hsome : part.inlineData.isSome := by rw [hpart]; rfl
  have himg := imagePart_of_split r ps pre post part hps hsplit hpre hsome
  have hbind : (imagePartFromResponse r).bind Part.inlineData = some ⟨M, D⟩ := by
    rw [himg]; simpa using hpart
  exact handle_ok_of_inline r context M D (by rw [hb]; rfl) hbind

/-- C3 witness: a response with finish reason `MAX_TOKENS` and text `oops`
still succeeds with the inline PNG's data URL. -/
theorem claim3_image_beats_abnormal_witness :
    firstFinishReason abnormalWithImageResponse = some "MAX_TOKENS" ∧
    abnormalWithImageResponse.text = some "oops" ∧
    handleApiResponse abnormalWithImageResponse "filter" =
      .ok (imageDataUrl "image/png" "AAAA") := by
  refine ⟨rfl, rfl, ?_⟩
  exact claim3_image_beats_abnormal abnormalWithImageResponse "filter"
    "image/png" "AAAA" "MAX_TOKENS" "oops"
    [⟨none⟩, ⟨some ⟨"image/png", "AAAA"⟩⟩] [⟨none⟩] [] ⟨some ⟨"image/png", "AAAA"⟩⟩
    rfl rfl rfl (by decide) rfl rfl (by decide) rfl (by decide)

/-- C4 (amended): for every response with no `blockReason`, no inline-data
part, and a finish reason that is present, non-empty and different from
`STOP`, `handleApiResponse` fails with kind `AbnormalFinish` and the message
contains both the context string and the finish reason. -/
theorem claim4_abnormal_finish (r : GenerateContentResponse) (context fr : String)
    (hb : promptBlockReason r = none)
    (himg : imagePartFromResponse r = none)
    (hfr : firstFinishReason r = some fr)
    (hne : fr ≠ "") (hstop : fr ≠ "STOP") :
    handleApiResponse r context = .abnormalFinish (abnormalMessage context fr) ∧
    containsStr (abnormalMessage context fr) context ∧
    containsStr (abnormalMessage context fr) fr := by
  refine ⟨?_, ?_, ?_⟩
  · have hbind : (imagePartFromResponse r).bind Part.inlineData = none := by
      rw [himg]; rfl
    simp [handleApiResponse, hb, hbind, hfr, strTruthy, hne, hstop]
  · exact ⟨"Image generation for ", " stopped unexpectedly. Reason: " ++
      (fr ++ ". This often relates to safety settings."), rfl⟩
  · refine ⟨"Image generation for " ++ (context ++ " stopped unexpectedly. Reason: "),
      ". This often relates to safety settings.", ?_⟩
    simp [abnormalMessage, String.append_assoc]

/-- C4 witness: with finish reason `SAFETY` the failure message contains
`SAFETY`. -/
theorem claim4_abnormal_finish_witness :
    promptBlockReason safetyFinishResponse = none ∧
    imagePartFromResponse safetyFinishResponse = none ∧
    firstFinishReason safetyFinishResponse = some "SAFETY" ∧
    handleApiResponse safetyFinishResponse "edit" =
      .abnormalFinish (abnormalMessage "edit" "SAFETY") ∧
    containsStr (abnormalMessage "edit" "SAFETY") "SAFETY" := by
  have h := claim4_abnormal_finish safetyFinishResponse "edit" "SAFETY"
    rfl rfl rfl (by decide) (by decide)
  exact ⟨rfl, rfl, rfl, h.1, h.2.2⟩

/-- C4 counterexample: a finish reason that is present but equal to `""` is
present and different from `STOP`, yet the source's truthiness test skips
the abnormal-finish branch and the response is classified as
`NoImageReturned` instead of `AbnormalFinish`. -/
theorem claim4_counterexample :
    promptBlockReason emptyFinishReasonResponse = none ∧
    imagePartFromResponse emptyFinishReasonResponse = none ∧
    firstFinishReason emptyFinishReasonResponse = some "" ∧
    ("" : String) ≠ "STOP" ∧
    (handleApiResponse emptyFinishReasonResponse "edit").isAbnormalFinish = false ∧
    handleApiResponse emptyFinishReasonResponse "edit" =
      .noImageReturned (noImageGenericMessage "edit") := by
  exact ⟨rfl, rfl, rfl, by decide, rfl, rfl⟩

/-- C5: for every response with no `blockReason`, no inline-data part, a
finish reason equal to `STOP` or absent, and text whose trim is non-empty,
`handleApiResponse` fails with kind `NoImageReturned` and the message embeds
the context and the trimmed response text. -/
theorem claim5_text_feedback (r : GenerateContentResponse) (context t : String)
    (hb : promptBlockReason r = none)
    (himg : imagePartFromResponse r = none)
    (hfr : firstFinishReason r = some "STOP" ∨ firstFinishReason r = none)
    (htext : r.text = some t)
    (hne : jsTrim t ≠ "") :
    handleApiResponse r context = .noImageReturned (noImageTextMessage context (jsTrim t)) ∧
    containsStr (noImageTextMessage context (jsTrim t)) context ∧
    containsStr (noImageTextMessage context (jsTrim t)) (jsTrim t) := by
  refine ⟨?_, ?_, ?_⟩
  · have hbind : (imagePartFromResponse r).bind Part.inlineData = none := by
      rw [himg]; rfl
    rcases hfr with hfr | hfr <;>
      simp [handleApiResponse, hb, hbind, hfr, htext, strTruthy, hne]
  · exact ⟨"The AI model did not return an image for the ",
      ". The model responded with text: \"" ++ (jsTrim t ++ "\""), rfl⟩
  · refine ⟨"The AI model did not return an image for the " ++
      (context ++ ". The model responded with text: \""), "\"", ?_⟩
    simp [noImageTextMessage, String.append_assoc]

/-- C5 witness: text `I cannot do that.` yields a `NoImageReturned` failure
whose message contains that literal text. -/
theorem claim5_text_feedback_witness :
    refusalTextResponse.text = some "I cannot do that." ∧
    jsTrim "I cannot do that." = "I cannot do that." ∧
    handleApiResponse refusalTextResponse "edit" =
      .noImageReturned (noImageTextMessage "edit" "I cannot do that.") ∧
    containsStr (noImageTextMessage "edit" "I cannot do that.") "I cannot do that." := by
  have h := claim5_text_feedback refusalTextResponse "edit" "I cannot do that."
    rfl rfl (Or.inl rfl) rfl (by decide)
  exact ⟨rfl, rfl, h.1, h.2.2⟩

/-- C6: for every response with no `blockReason`, no inline-data part, a
finish reason equal to `STOP` or absent, and text absent or trimming to
empty, `handleApiResponse` fails with kind `NoImageReturned` carrying
exactly the generic guidance message (so no response text is embedded). -/
theorem claim6_generic_guidance (r : GenerateContentResponse) (context : String)
    (hb : promptBlockReason r = none)
    (himg : imagePartFromResponse r = none)
    (hfr : firstFinishReason r = some "STOP" ∨ firstFinishReason r = none)
    (htext : r.text = none ∨ ∃ t, r.text = some t ∧ jsTrim t = "") :
    handleApiResponse r context = .noImageReturned (noImageGenericMessage context) := by
  have hbind : (imagePartFromResponse r).bind Part.inlineData = none := by
    rw [himg]; rfl
  rcases htext with htext | ⟨t, htext, hempty⟩
  · rcases hfr with hfr | hfr <;>
      simp [handleApiResponse, hb, hbind, hfr, htext, strTruthy]
  · rcases hfr with hfr | hfr <;>
      simp [handleApiResponse, hb, hbind, hfr, htext, hempty, strTruthy]

/-- C6 witness: whitespace-only text with finish reason `STOP` yields the
generic guidance message. -/
theorem claim6_generic_guidance_witness :
    whitespaceOnlyResponse.text = some "   " ∧
    jsTrim "   " = "" ∧
    handleApiResponse whitespaceOnlyResponse "adjustment" =
      .noImageReturned (noImageGenericMessage "adjustment") := by
  refine ⟨rfl, rfl, ?_⟩
  exact claim6_generic_guidance whitespaceOnlyResponse "adjustment"
    rfl rfl (Or.inl rfl) (Or.inr ⟨"   ", rfl, rfl⟩)

/-- C7: `handleApiResponse` is total on structurally incomplete responses —
when `candidates` is absent, or the first candidate's `content` is absent,
or its `parts` is absent, classification falls through to the abnormal-stop
or no-image steps; the embedding of each optional access as `Option.bind`
mirrors the source's optional chaining, which is what rules out a
structural error. -/
theorem claim7_structural_fallthrough (r : GenerateContentResponse) (context : String)
    (hb : promptBlockReason r = none)
    (hmiss : r.candidates = none ∨
      (∃ c cs, r.candidates = some (c :: cs) ∧ c.content = none) ∨
      (∃ c cs ct, r.candidates = some (c :: cs) ∧ c.content = some ct ∧
        ct.parts = none)) :
    (handleApiResponse r context).isAbnormalFinish = true ∨
    (handleApiResponse r context).isNoImageReturned = true := by
  have hbt : strTruthy (promptBlockReason r) = false := by rw [hb]; rfl
  have hparts : candidateParts r = none := by
    rcases hmiss with hc | ⟨c, cs, hc, hcontent⟩ | ⟨c, cs, ct, hc, hcontent, hp⟩
    · simp [candidateParts, firstCandidate, hc]
    · simp [candidateParts, firstCandidate, hc, hcontent]
    · simp [candidateParts, firstCandidate, hc, hcontent, hp]
  have hbind : (imagePartFromResponse r).bind Part.inlineData = none := by
    simp [imagePartFromResponse, hparts]
  by_cases h2 : (strTruthy (firstFinishReason r) &&
      ((firstFinishReason r).getD "" != "STOP")) = true
  · left
    simp [handleApiResponse, hbt, hbind, h2, InterpretResult.isAbnormalFinish]
  · right
    rw [Bool.not_eq_true] at h2
    by_cases h3 : strTruthy (r.text.map jsTrim) = true
    · simp [handleApiResponse, hbt, hbind, h2, h3, InterpretResult.isNoImageReturned]
    · rw [Bool.not_eq_true] at h3
      simp [handleApiResponse, hbt, hbind, h2, h3, InterpretResult.isNoImageReturned]

/-- C7 witness: a response with no `candidates` field at all is classified
as `NoImageReturned`, not a structural error. -/
theorem claim7_structural_fallthrough_witness :
    noCandidatesResponse.candidates = none ∧
    promptBlockReason noCandidatesResponse = none ∧
    ((handleApiResponse noCandidatesResponse "edit").isAbnormalFinish = true ∨
     (handleApiResponse noCandidatesResponse "edit").isNoImageReturned = true) := by
  exact ⟨rfl, rfl, claim7_structural_fallthrough noCandidatesResponse "edit"
    rfl (Or.inl rfl)⟩

/-- C8 (amended): for every detection response with no `blockReason`, if the
top-level text is present and trims to the empty string the parse succeeds
with the empty sequence, but if the text is absent the parse fails with kind
`MalformedDetectionPayload` — the source calls `.trim()` on the text without
optional chaining, and the resulting TypeError is converted by the `catch`
block into the invalid-format failure. -/
theorem claim8_empty_text (r : GenerateContentResponse)
    (hb : promptBlockReason r = none) :
    (∀ t, r.text = some t → jsTrim t = "" → parseDetectionResponse r = .ok []) ∧
    (r.text = none → parseDetectionResponse r = .malformed invalidFormatMessage) := by
  constructor
  · intro t ht hempty
    simp [parseDetectionResponse, hb, ht, hempty, strTruthy]
  · intro ht
    simp [parseDetectionResponse, hb, ht, strTruthy]

/-- C8 witness: whitespace-only detection text yields the empty sequence. -/
theorem claim8_empty_text_witness :
    promptBlockReason whitespaceTextDetectionResponse = none ∧
    whitespaceTextDetectionResponse.text = some "   " ∧
    jsTrim "   " = "" ∧
    parseDetectionResponse whitespaceTextDetectionResponse = .ok [] := by
  exact ⟨rfl, rfl, rfl, (claim8_empty_text whitespaceTextDetectionResponse rfl).1 "   " rfl rfl⟩

/-- C8 counterexample: a detection response with no top-level text at all is
not a success — it fails with the invalid-format message, because
`response.text.trim()` raises on an absent text and the `catch` block turns
that into the malformed-payload failure. -/
theorem claim8_counterexample :
    missingTextDetectionResponse.text = none ∧
    promptBlockReason missingTextDetectionResponse = none ∧
    (parseDetectionResponse missingTextDetectionResponse).isOk = false ∧
    parseDetectionResponse missingTextDetectionResponse = .malformed invalidFormatMessage := by
  exact ⟨rfl, rfl, rfl, rfl⟩

/-- C9: for every detection response with no `blockReason` whose trimmed
text is non-empty and either fails to parse as JSON or parses to a value
that is not an array, the parse fails with kind `MalformedDetectionPayload`
carrying the invalid-format message. -/
theorem claim9_malformed_payload (r : GenerateContentResponse) (t : String)
    (hb : promptBlockReason r = none)
    (ht : r.text = some t) (hne : jsTrim t ≠ "")
    (hbad : Json.parse (jsTrim t) = none ∨
      ∃ j, Json.parse (jsTrim t) = some j ∧ j.isArr = false) :
    parseDetectionResponse r = .malformed invalidFormatMessage := by
  rcases hbad with hnone | ⟨j, hj, hnarr⟩
  · simp [parseDetectionResponse, hb, ht, hne, hnone, strTruthy]
  · cases j with
    | arr es => simp [Json.isArr] at hnarr
    | null => simp [parseDetectionResponse, hb, ht, hne, hj, strTruthy]
    | boolean b => simp [parseDetectionResponse, hb, ht, hne, hj, strTruthy]
    | num lexeme => simp [parseDetectionResponse, hb, ht, hne, hj, strTruthy]
    | str s => simp [parseDetectionResponse, hb, ht, hne, hj, strTruthy]
    | obj ms => simp [parseDetectionResponse, hb, ht, hne, hj, strTruthy]

/-- C9 witness: the text `not json` does not parse and produces the
malformed-payload failure. -/
theorem claim9_malformed_payload_witness :
    notJsonDetectionResponse.text = some "not json" ∧
    Json.parse (jsTrim "not json") = none ∧
    parseDetectionResponse notJsonDetectionResponse = .malformed invalidFormatMessage := by
  refine ⟨rfl, rfl, ?_⟩
  exact claim9_malformed_payload notJsonDetectionResponse "not json"
    rfl rfl (by decide) (Or.inl rfl)

/-- C10: `parseDetectionResponse` performs no element-level validation — for
every detection response with no `blockReason` whose trimmed text parses to
a JSON array, the result is exactly the parsed array, element for element
and in order, whatever the elements are. -/
theorem claim10_no_element_validation (r : GenerateContentResponse) (t : String)
    (es : List Json)
    (hb : promptBlockReason r = none)
    (ht : r.text = some t) (hne : jsTrim t ≠ "")
    (hparse : Json.parse (jsTrim t) = some (Json.arr es)) :
    parseDetectionResponse r = .ok es := by
  simp [parseDetectionResponse, hb, ht, hne, hparse, strTruthy]

/-- C10 witness: the array `[1, 2, 3]`, whose elements are not objects at
all, is returned unchanged as a success. -/
theorem claim10_no_element_validation_witness :
    numberArrayDetectionResponse.text = some " [1, 2, 3] " ∧
    Json.parse (jsTrim " [1, 2, 3] ") =
      some (Json.arr [Json.num "1", Json.num "2", Json.num "3"]) ∧
    parseDetectionResponse numberArrayDetectionResponse =
      .ok [Json.num "1", Json.num "2", Json.num "3"] := by
  refine ⟨rfl, rfl, ?_⟩
  exact claim10_no_element_validation numberArrayDetectionResponse " [1, 2, 3] "
    [Json.num "1", Json.num "2", Json.num "3"] rfl rfl (by decide) rfl

end GeminiService
